import Mathlib

/-!
Shallow embedding of `src/server.js`, a four-endpoint Express REST backend
with two in-memory key-value tables (`deviceData` and `commands`).

JSON bodies are modelled as association lists of string keys to scalar JSON
values; the handlers in the source never inspect nested structure, only
`typeof` tags and field presence, so scalar values suffice for every claim.
JavaScript numbers are modelled as rationals and `Date.now()` timestamps are
passed to each handler as an explicit `now` argument.  Each handler is a pure
function from server state (and request data) to the new state paired with
the HTTP response; the source handlers are synchronous JavaScript with no
`await`, so the Node event loop runs each one atomically, and sequential
composition of whole handler executions is the faithful concurrency model.
The tables are plain object literals, so an indexed read falls back to the
properties inherited from the JavaScript object prototype when no own
property is stored; `tableRead` models that fallback.
-/

namespace ESP32Rest

/-- Scalar JSON values as the handlers observe them: `null`, booleans,
numbers (JS numbers, modelled as rationals) and strings. -/
inductive JsonValue where
  | null : JsonValue
  | bool : Bool → JsonValue
  | num : ℚ → JsonValue
  | str : String → JsonValue
deriving DecidableEq

/-- A JSON object: an association list from field names to values. -/
abbrev JsonObj := List (String × JsonValue)

/-- Field lookup on an association list (first match wins; objects parsed
from JSON have unique keys). -/
def assocGet {α : Type} : List (String × α) → String → Option α
  | [], _ => none
  | (k', v') :: rest, k => if k' = k then some v' else assocGet rest k

/-- Set a field: replace the first binding of the key in place, or append a
new binding at the end, matching JavaScript property assignment and the
spread-then-override pattern of the source. -/
def assocSet {α : Type} : List (String × α) → String → α → List (String × α)
  | [], k, v => [(k, v)]
  | (k', v') :: rest, k, v =>
    if k' = k then (k, v) :: rest else (k', v') :: assocSet rest k v

/-- JavaScript truthiness for the scalar values of this model, used for the
source's `if (command.buzzer)` test; a missing field (`undefined`) is falsy. -/
def truthy : Option JsonValue → Bool
  | none => false
  | some JsonValue.null => false
  | some (JsonValue.bool b) => b
  | some (JsonValue.num q) => q ≠ 0
  | some (JsonValue.str s) => s ≠ ""

/-- The whole mutable state of the server: the telemetry table `deviceData`
and the command table `commands`, both keyed by device id. -/
structure ServerState where
  deviceData : List (String × JsonObj)
  commands : List (String × JsonObj)
deriving DecidableEq

/-- An HTTP response: status code and JSON body. -/
structure HttpResponse where
  status : Nat
  body : JsonObj
deriving DecidableEq

/-- The property names every plain JavaScript object inherits from
`Object.prototype`; an indexed read at one of these names on a table with
no own property for it yields the inherited host value instead of
`undefined`. -/
def objectPrototypeKeys : List String :=
  ["__proto__", "constructor", "hasOwnProperty", "isPrototypeOf",
   "propertyIsEnumerable", "toLocaleString", "toString", "valueOf",
   "__defineGetter__", "__defineSetter__", "__lookupGetter__",
   "__lookupSetter__"]

/-- A JavaScript property read `tbl[key]` on one of the two table objects:
the own property when one is stored, else the value inherited from
`Object.prototype` at the keys above, else `undefined` (`none`).  The
inherited values are truthy host values with no telemetry or command
fields of their own (`Object.prototype` itself for the `__proto__`
accessor, built-in functions for the rest); `res.json` serializes the
prototype object to the empty JSON object and a function to a body with
no fields at all, so both are recorded as the empty object.  Writes are
modelled as own-property updates; the real assignment at the key
`__proto__` instead installs the record as the table's prototype, which a
same-key read observes identically, so per-device traces agree. -/
def tableRead (tbl : List (String × JsonObj)) (key : String) : Option JsonObj :=
  match assocGet tbl key with
  | some v => some v
  | none => if key ∈ objectPrototypeKeys then some [] else none

/-- The source's `typeof x === 'number'` check on a field lookup. -/
def isNumberValue : Option JsonValue → Bool
  | some (JsonValue.num _) => true
  | _ => false

/-- Translation of `isValidGpsData` (src/server.js lines 27-33): latitude and
longitude must be numbers, rssi must not be `undefined`. -/
def isValidGpsData (data : JsonObj) : Bool :=
  isNumberValue (assocGet data "latitude") &&
  isNumberValue (assocGet data "longitude") &&
  (assocGet data "rssi").isSome

/-- Handler for `POST /api/data/:deviceId` (src/server.js lines 39-56):
reject with 400 when `isValidGpsData` fails, otherwise store the whole body
with a server `timestamp` field spread over it and reply 200. -/
def handlePostData (st : ServerState) (deviceId : String) (body : JsonObj)
    (now : ℚ) : ServerState × HttpResponse :=
  if !isValidGpsData body then
    (st, ⟨400, [("message", JsonValue.str "Invalid GPS data structure.")]⟩)
  else
    (⟨assocSet st.deviceData deviceId
        (assocSet body "timestamp" (JsonValue.num now)), st.commands⟩,
     ⟨200, [("message", JsonValue.str "Data accepted.")]⟩)

/-- Handler for `GET /api/data/:deviceId` (src/server.js lines 61-73): the
indexed read `deviceData[deviceId]` is falsy only when it is `undefined`,
which the prototype-chain fallback of `tableRead` makes rarer than plain
absence; on `undefined` a 200 placeholder body is sent, else the value
read (the stored record, or the serialized inherited value). -/
def handleGetData (st : ServerState) (deviceId : String) :
    ServerState × HttpResponse :=
  match tableRead st.deviceData deviceId with
  | none =>
    (st, ⟨200, [("message", JsonValue.str "No data found for device."),
                ("latitude", JsonValue.null),
                ("longitude", JsonValue.null)]⟩)
  | some latestData => (st, ⟨200, latestData⟩)

/-- Handler for `POST /api/command/:deviceId` (src/server.js lines 78-89):
unconditionally overwrite the command record with buzzer true and the
current time. -/
def handlePostCommand (st : ServerState) (deviceId : String) (now : ℚ) :
    ServerState × HttpResponse :=
  (⟨st.deviceData, assocSet st.commands deviceId
      [("buzzer", JsonValue.bool true), ("timestamp", JsonValue.num now)]⟩,
   ⟨200, [("message", JsonValue.str "Command queued.")]⟩)

/-- The source's `commands[deviceId] || { buzzer: false }`: the indexed
read (including its prototype-chain fallback) is always a truthy object
when it is not `undefined`, so `||` reduces to a default on absence. -/
def currentCommand (st : ServerState) (deviceId : String) : JsonObj :=
  (tableRead st.commands deviceId).getD [("buzzer", JsonValue.bool false)]

/-- Handler for `GET /api/command/:deviceId` (src/server.js lines 94-106):
respond with the current command record (default buzzer false), then, when
its buzzer field is truthy, reset the stored record to buzzer false with a
fresh timestamp. -/
def handleGetCommand (st : ServerState) (deviceId : String) (now : ℚ) :
    ServerState × HttpResponse :=
  if truthy (assocGet (currentCommand st deviceId) "buzzer") then
    (⟨st.deviceData, assocSet st.commands deviceId
        [("buzzer", JsonValue.bool false), ("timestamp", JsonValue.num now)]⟩,
     ⟨200, currentCommand st deviceId⟩)
  else
    (st, ⟨200, currentCommand st deviceId⟩)

/-- A sequence of `GET /api/command/:deviceId` requests served in order, one
per timestamp in the list, threading the state and collecting responses. -/
def getCommandSeq : ServerState → String → List ℚ →
    ServerState × List HttpResponse
  | st, _, [] => (st, [])
  | st, deviceId, t :: ts =>
    let step := handleGetCommand st deviceId t
    let rest := getCommandSeq step.1 deviceId ts
    (rest.1, step.2 :: rest.2)

/-- Shape validity as the spec words it: latitude is a number, longitude is
a number, and the rssi field is present (in any type). -/
def specShapeValid (body : JsonObj) : Prop :=
  (∃ q : ℚ, assocGet body "latitude" = some (JsonValue.num q)) ∧
  (∃ q : ℚ, assocGet body "longitude" = some (JsonValue.num q)) ∧
  (assocGet body "rssi").isSome = true

/- ### Helper lemmas about the association-list operations -/

lemma assocGet_assocSet_self {α : Type} (o : List (String × α)) (k : String)
    (v : α) : assocGet (assocSet o k v) k = some v := by
  induction o with
  | nil => simp [assocSet, assocGet]
  | cons hd tl ih =>
    obtain ⟨k', v'⟩ := hd
    by_cases hk : k' = k
    · simp [assocSet, assocGet, hk]
    · simp [assocSet, assocGet, hk, ih]

lemma assocGet_assocSet_ne {α : Type} (o : List (String × α)) (k k' : String)
    (v : α) (hk : k' ≠ k) : assocGet (assocSet o k' v) k = assocGet o k := by
  induction o with
  | nil => simp [assocSet, assocGet, hk]
  | cons hd tl ih =>
    obtain ⟨k0, v0⟩ := hd
    by_cases h0 : k0 = k'
    · subst h0
      simp [assocSet, assocGet, hk]
    · simp [assocSet, assocGet, h0, ih]

lemma assocSet_assocSet_self {α : Type} (o : List (String × α)) (k : String)
    (v w : α) : assocSet (assocSet o k v) k w = assocSet o k w := by
  induction o with
  | nil => simp [assocSet]
  | cons hd tl ih =>
    obtain ⟨k0, v0⟩ := hd
    by_cases h0 : k0 = k
    · simp [assocSet, h0]
    · simp [assocSet, h0, ih]

lemma isNumberValue_iff (o : Option JsonValue) :
    isNumberValue o = true ↔ ∃ q : ℚ, o = some (JsonValue.num q) := by
  cases o with
  | none => simp [isNumberValue]
  | some v => cases v <;> simp [isNumberValue]

lemma isValidGpsData_iff_specShapeValid (body : JsonObj) :
    isValidGpsData body = true ↔ specShapeValid body := by
  unfold isValidGpsData specShapeValid
  rw [Bool.and_eq_true, Bool.and_eq_true, isNumberValue_iff, isNumberValue_iff]
  tauto

/- ### Helper lemmas about the command endpoints -/

lemma handleGetCommand_of_cleared (st : ServerState) (deviceId : String)
    (t : ℚ)
    (h : assocGet (currentCommand st deviceId) "buzzer"
        = some (JsonValue.bool false)) :
    handleGetCommand st deviceId t = (st, ⟨200, currentCommand st deviceId⟩) := by
  unfold handleGetCommand
  rw [h]
  simp [truthy]

lemma getCommandSeq_of_cleared (st : ServerState) (deviceId : String)
    (ts : List ℚ)
    (h : assocGet (currentCommand st deviceId) "buzzer"
        = some (JsonValue.bool false)) :
    ∀ r ∈ (getCommandSeq st deviceId ts).2,
      assocGet r.body "buzzer" = some (JsonValue.bool false) := by
  induction ts with
  | nil => intro r hr; simp [getCommandSeq] at hr
  | cons t ts ih =>
    intro r hr
    rw [getCommandSeq] at hr
    simp only [handleGetCommand_of_cleared st deviceId t h, List.mem_cons] at hr
    rcases hr with hr | hr
    · subst hr; exact h
    · exact ih r hr

lemma handlePostCommand_state (st : ServerState) (deviceId : String)
    (t : ℚ) :
    (handlePostCommand st deviceId t).1
      = ⟨st.deviceData, assocSet st.commands deviceId
          [("buzzer", JsonValue.bool true), ("timestamp", JsonValue.num t)]⟩ := rfl

lemma currentCommand_after_post (st : ServerState) (deviceId : String)
    (t : ℚ) :
    currentCommand (handlePostCommand st deviceId t).1 deviceId
      = [("buzzer", JsonValue.bool true), ("timestamp", JsonValue.num t)] := by
  unfold currentCommand
  rw [handlePostCommand_state]
  simp [tableRead, assocGet_assocSet_self]

lemma handleGetCommand_after_post (st : ServerState) (deviceId : String)
    (t0 t1 : ℚ) :
    handleGetCommand (handlePostCommand st deviceId t0).1 deviceId t1
      = (⟨st.deviceData, assocSet st.commands deviceId
            [("buzzer", JsonValue.bool false), ("timestamp", JsonValue.num t1)]⟩,
         ⟨200, [("buzzer", JsonValue.bool true),
                ("timestamp", JsonValue.num t0)]⟩) := by
  unfold handleGetCommand
  rw [currentCommand_after_post]
  simp [truthy, handlePostCommand_state, assocSet_assocSet_self, assocGet]

lemma currentCommand_after_post_get (st : ServerState) (deviceId : String)
    (t0 t1 : ℚ) :
    assocGet (currentCommand
        (handleGetCommand (handlePostCommand st deviceId t0).1 deviceId t1).1
        deviceId) "buzzer" = some (JsonValue.bool false) := by
  rw [handleGetCommand_after_post]
  unfold currentCommand
  simp [tableRead, assocGet_assocSet_self, assocGet]

lemma handleGetData_after_post (st : ServerState) (deviceId : String)
    (body : JsonObj) (t : ℚ) (hvalid : isValidGpsData body = true) :
    handleGetData (handlePostData st deviceId body t).1 deviceId
      = ((handlePostData st deviceId body t).1,
         ⟨200, assocSet body "timestamp" (JsonValue.num t)⟩) := by
  unfold handlePostData handleGetData
  simp [hvalid, tableRead, assocGet_assocSet_self]

/-- C1: for every device id, after a POST /api/command/:id, the first
subsequent GET /api/command/:id returns a record with the buzzer flag true,
and every following GET /api/command/:id with no intervening POST returns
the buzzer flag false (the read that observes true resets the stored state
to false in the same operation). -/
theorem C1_command_one_shot (st : ServerState) (deviceId : String)
    (t0 t1 : ℚ) (ts : List ℚ) :
    assocGet (handleGetCommand (handlePostCommand st deviceId t0).1
        deviceId t1).2.body "buzzer" = some (JsonValue.bool true) ∧
    ∀ r ∈ (getCommandSeq
        (handleGetCommand (handlePostCommand st deviceId t0).1 deviceId t1).1
        deviceId ts).2,
      assocGet r.body "buzzer" = some (JsonValue.bool false) := by
  constructor
  · rw [handleGetCommand_after_post]
    simp [assocGet]
  · exact getCommandSeq_of_cleared _ _ _
      (currentCommand_after_post_get st deviceId t0 t1)

/-- Witness for C1 at a concrete run: POST at time 1, GET at time 2 sees
buzzer true, GET at time 3 sees buzzer false. -/
theorem C1_command_one_shot_witness :
    assocGet (handleGetCommand (handlePostCommand ⟨[], []⟩ "dev1" 1).1
        "dev1" 2).2.body "buzzer" = some (JsonValue.bool true) ∧
    assocGet (handleGetCommand
        (handleGetCommand (handlePostCommand ⟨[], []⟩ "dev1" 1).1 "dev1" 2).1
        "dev1" 3).2.body "buzzer" = some (JsonValue.bool false) := by
  have h := C1_command_one_shot ⟨[], []⟩ "dev1" 1 2 [3]
  refine ⟨h.1, h.2 _ ?_⟩
  simp [getCommandSeq]

/-- C2: for every device id and every body passing shape validation, a GET
/api/data/:id after the POST /api/data/:id returns the posted latitude,
longitude and rssi values together with a server-assigned timestamp no
earlier than the POST time. -/
theorem C2_telemetry_roundtrip (st : ServerState) (deviceId : String)
    (body : JsonObj) (t : ℚ) (hvalid : isValidGpsData body = true) :
    (handleGetData (handlePostData st deviceId body t).1 deviceId).2.status
      = 200 ∧
    assocGet (handleGetData (handlePostData st deviceId body t).1
        deviceId).2.body "latitude" = assocGet body "latitude" ∧
    assocGet (handleGetData (handlePostData st deviceId body t).1
        deviceId).2.body "longitude" = assocGet body "longitude" ∧
    assocGet (handleGetData (handlePostData st deviceId body t).1
        deviceId).2.body "rssi" = assocGet body "rssi" ∧
    ∃ ts : ℚ, assocGet (handleGetData (handlePostData st deviceId body t).1
        deviceId).2.body "timestamp" = some (JsonValue.num ts) ∧ t ≤ ts := by
  rw [handleGetData_after_post st deviceId body t hvalid]
  refine ⟨rfl, ?_, ?_, ?_, t, ?_, le_refl t⟩
  · exact assocGet_assocSet_ne body "latitude" "timestamp" _ (by decide)
  · exact assocGet_assocSet_ne body "longitude" "timestamp" _ (by decide)
  · exact assocGet_assocSet_ne body "rssi" "timestamp" _ (by decide)
  · exact assocGet_assocSet_self body "timestamp" _

/-- Witness for C2 at a concrete valid payload posted at time 100. -/
theorem C2_telemetry_roundtrip_witness :
    isValidGpsData [("latitude", JsonValue.num 14),
      ("longitude", JsonValue.num 120), ("rssi", JsonValue.num (-80))]
      = true ∧
    ((handleGetData (handlePostData ⟨[], []⟩ "dev1"
        [("latitude", JsonValue.num 14), ("longitude", JsonValue.num 120),
         ("rssi", JsonValue.num (-80))] 100).1 "dev1").2.status = 200 ∧
     assocGet (handleGetData (handlePostData ⟨[], []⟩ "dev1"
        [("latitude", JsonValue.num 14), ("longitude", JsonValue.num 120),
         ("rssi", JsonValue.num (-80))] 100).1 "dev1").2.body "latitude"
       = assocGet [("latitude", JsonValue.num 14),
          ("longitude", JsonValue.num 120), ("rssi", JsonValue.num (-80))]
          "latitude" ∧
     assocGet (handleGetData (handlePostData ⟨[], []⟩ "dev1"
        [("latitude", JsonValue.num 14), ("longitude", JsonValue.num 120),
         ("rssi", JsonValue.num (-80))] 100).1 "dev1").2.body "longitude"
       = assocGet [("latitude", JsonValue.num 14),
          ("longitude", JsonValue.num 120), ("rssi", JsonValue.num (-80))]
          "longitude" ∧
     assocGet (handleGetData (handlePostData ⟨[], []⟩ "dev1"
        [("latitude", JsonValue.num 14), ("longitude", JsonValue.num 120),
         ("rssi", JsonValue.num (-80))] 100).1 "dev1").2.body "rssi"
       = assocGet [("latitude", JsonValue.num 14),
          ("longitude", JsonValue.num 120), ("rssi", JsonValue.num (-80))]
          "rssi" ∧
     ∃ ts : ℚ, assocGet (handleGetData (handlePostData ⟨[], []⟩ "dev1"
        [("latitude", JsonValue.num 14), ("longitude", JsonValue.num 120),
         ("rssi", JsonValue.num (-80))] 100).1 "dev1").2.body "timestamp"
       = some (JsonValue.num ts) ∧ (100 : ℚ) ≤ ts) :=
  ⟨rfl, C2_telemetry_roundtrip ⟨[], []⟩ "dev1"
    [("latitude", JsonValue.num 14), ("longitude", JsonValue.num 120),
     ("rssi", JsonValue.num (-80))] 100 rfl⟩

/-- C3: POST /api/data/:deviceId responds 400 exactly when the body fails
shape validation (latitude not a number, longitude not a number, or rssi
absent) and 200 otherwise; a 400 leaves the stores unchanged; the body with
latitude the string abc, longitude 1, rssi 1 yields 400. -/
theorem C3_post_data_validation (st : ServerState) (deviceId : String)
    (body : JsonObj) (t : ℚ) :
    ((handlePostData st deviceId body t).2.status = 400 ↔
      ¬ specShapeValid body) ∧
    ((handlePostData st deviceId body t).2.status = 400 →
      (handlePostData st deviceId body t).1 = st) ∧
    ((handlePostData st deviceId body t).2.status ≠ 400 →
      (handlePostData st deviceId body t).2.status = 200) ∧
    (handlePostData st deviceId
      [("latitude", JsonValue.str "abc"), ("longitude", JsonValue.num 1),
       ("rssi", JsonValue.num 1)] t).2.status = 400 := by
  have hbad : (handlePostData st deviceId
      [("latitude", JsonValue.str "abc"), ("longitude", JsonValue.num 1),
       ("rssi", JsonValue.num 1)] t).2.status = 400 := rfl
  by_cases hv : isValidGpsData body = true
  · have hs := (isValidGpsData_iff_specShapeValid body).mp hv
    exact ⟨by simp [handlePostData, hv, hs], by simp [handlePostData, hv],
      by simp [handlePostData, hv], hbad⟩
  · have hv' : isValidGpsData body = false := by
      simpa using hv
    have hs : ¬ specShapeValid body := fun h =>
      hv ((isValidGpsData_iff_specShapeValid body).mpr h)
    exact ⟨by simp [handlePostData, hv', hs], by simp [handlePostData, hv'],
      by simp [handlePostData, hv'], hbad⟩

/-- Witness for C3: the concrete invalid body is rejected with 400 and the
empty store is unchanged. -/
theorem C3_post_data_validation_witness :
    (handlePostData ⟨[], []⟩ "dev1"
      [("latitude", JsonValue.str "abc"), ("longitude", JsonValue.num 1),
       ("rssi", JsonValue.num 1)] 0).2.status = 400 ∧
    (handlePostData ⟨[], []⟩ "dev1"
      [("latitude", JsonValue.str "abc"), ("longitude", JsonValue.num 1),
       ("rssi", JsonValue.num 1)] 0).1 = ⟨[], []⟩ := by
  have h := C3_post_data_validation ⟨[], []⟩ "dev1"
    [("latitude", JsonValue.str "abc"), ("longitude", JsonValue.num 1),
     ("rssi", JsonValue.num 1)] 0
  exact ⟨h.2.2.2, h.2.1 h.2.2.2⟩

lemma isNumberValue_isSome (o : Option JsonValue)
    (h : isNumberValue o = true) : o.isSome = true := by
  cases o with
  | none => simp [isNumberValue] at h
  | some v => rfl

/-- C5: command issuance is idempotent while pending: two POST
/api/command/:id calls before any read leave the same stored state as one
POST at the second time, and reading then yields exactly one buzzer-true
observation followed by false on every subsequent read. -/
theorem C5_command_idempotent_while_pending (st : ServerState)
    (deviceId : String) (t1 t2 tr : ℚ) (ts : List ℚ) :
    (handlePostCommand (handlePostCommand st deviceId t1).1 deviceId t2).1
      = (handlePostCommand st deviceId t2).1 ∧
    assocGet (handleGetCommand
        (handlePostCommand (handlePostCommand st deviceId t1).1 deviceId t2).1
        deviceId tr).2.body "buzzer" = some (JsonValue.bool true) ∧
    ∀ r ∈ (getCommandSeq (handleGetCommand
        (handlePostCommand (handlePostCommand st deviceId t1).1 deviceId t2).1
        deviceId tr).1 deviceId ts).2,
      assocGet r.body "buzzer" = some (JsonValue.bool false) := by
  have h1 : (handlePostCommand (handlePostCommand st deviceId t1).1
      deviceId t2).1 = (handlePostCommand st deviceId t2).1 := by
    simp [handlePostCommand, assocSet_assocSet_self]
  refine ⟨h1, ?_, ?_⟩
  · rw [h1, handleGetCommand_after_post]
    simp [assocGet]
  · rw [h1]
    exact getCommandSeq_of_cleared _ _ _
      (currentCommand_after_post_get st deviceId t2 tr)

/-- Witness for C5 at a concrete run: two POSTs at times 1 and 2, then a
GET at time 3 seeing true and a GET at time 4 seeing false. -/
theorem C5_command_idempotent_while_pending_witness :
    (handlePostCommand (handlePostCommand ⟨[], []⟩ "dev1" 1).1 "dev1" 2).1
      = (handlePostCommand ⟨[], []⟩ "dev1" 2).1 ∧
    assocGet (handleGetCommand
        (handlePostCommand (handlePostCommand ⟨[], []⟩ "dev1" 1).1 "dev1" 2).1
        "dev1" 3).2.body "buzzer" = some (JsonValue.bool true) ∧
    assocGet (handleGetCommand (handleGetCommand
        (handlePostCommand (handlePostCommand ⟨[], []⟩ "dev1" 1).1 "dev1" 2).1
        "dev1" 3).1 "dev1" 4).2.body "buzzer"
      = some (JsonValue.bool false) := by
  have h := C5_command_idempotent_while_pending ⟨[], []⟩ "dev1" 1 2 3 [4]
  refine ⟨h.1, h.2.1, h.2.2 _ ?_⟩
  simp [getCommandSeq]

/-- C7 counterexample: after a valid POST at time 100, the GET success body
has no receivedAt field at all; the server time is under the field named
timestamp instead, refuting the claimed field name. -/
theorem C7_counterexample :
    assocGet (handleGetData (handlePostData ⟨[], []⟩ "dev1"
      [("latitude", JsonValue.num 14), ("longitude", JsonValue.num 120),
       ("rssi", JsonValue.num (-80))] 100).1 "dev1").2.body "receivedAt"
      = none ∧
    assocGet (handleGetData (handlePostData ⟨[], []⟩ "dev1"
      [("latitude", JsonValue.num 14), ("longitude", JsonValue.num 120),
       ("rssi", JsonValue.num (-80))] 100).1 "dev1").2.body "timestamp"
      = some (JsonValue.num 100) := by
  constructor <;> rfl

/-- C7 amended: when a telemetry record exists because of a valid POST, the
GET success body carries latitude, longitude and rssi fields, and the
server-assigned time is exposed under the field name timestamp. -/
theorem C7_success_body_shape (st : ServerState) (deviceId : String)
    (body : JsonObj) (t : ℚ) (hvalid : isValidGpsData body = true) :
    (handleGetData (handlePostData st deviceId body t).1 deviceId).2.status
      = 200 ∧
    (assocGet (handleGetData (handlePostData st deviceId body t).1
        deviceId).2.body "latitude").isSome = true ∧
    (assocGet (handleGetData (handlePostData st deviceId body t).1
        deviceId).2.body "longitude").isSome = true ∧
    (assocGet (handleGetData (handlePostData st deviceId body t).1
        deviceId).2.body "rssi").isSome = true ∧
    assocGet (handleGetData (handlePostData st deviceId body t).1
        deviceId).2.body "timestamp" = some (JsonValue.num t) := by
  have hv := hvalid
  rw [isValidGpsData, Bool.and_eq_true, Bool.and_eq_true] at hv
  obtain ⟨⟨hlat, hlon⟩, hrssi⟩ := hv
  rw [handleGetData_after_post st deviceId body t hvalid]
  refine ⟨rfl, ?_, ?_, ?_, assocGet_assocSet_self body "timestamp" _⟩
  · rw [assocGet_assocSet_ne body "latitude" "timestamp" _ (by decide)]
    exact isNumberValue_isSome _ hlat
  · rw [assocGet_assocSet_ne body "longitude" "timestamp" _ (by decide)]
    exact isNumberValue_isSome _ hlon
  · rw [assocGet_assocSet_ne body "rssi" "timestamp" _ (by decide)]
    exact hrssi

/-- Witness for the amended C7 at a concrete valid payload. -/
theorem C7_success_body_shape_witness :
    isValidGpsData [("latitude", JsonValue.num 10),
      ("longitude", JsonValue.num 20), ("rssi", JsonValue.num (-50))]
      = true ∧
    ((handleGetData (handlePostData ⟨[], []⟩ "dev2"
        [("latitude", JsonValue.num 10), ("longitude", JsonValue.num 20),
         ("rssi", JsonValue.num (-50))] 7).1 "dev2").2.status = 200 ∧
     (assocGet (handleGetData (handlePostData ⟨[], []⟩ "dev2"
        [("latitude", JsonValue.num 10), ("longitude", JsonValue.num 20),
         ("rssi", JsonValue.num (-50))] 7).1 "dev2").2.body
        "latitude").isSome = true ∧
     (assocGet (handleGetData (handlePostData ⟨[], []⟩ "dev2"
        [("latitude", JsonValue.num 10), ("longitude", JsonValue.num 20),
         ("rssi", JsonValue.num (-50))] 7).1 "dev2").2.body
        "longitude").isSome = true ∧
     (assocGet (handleGetData (handlePostData ⟨[], []⟩ "dev2"
        [("latitude", JsonValue.num 10), ("longitude", JsonValue.num 20),
         ("rssi", JsonValue.num (-50))] 7).1 "dev2").2.body
        "rssi").isSome = true ∧
     assocGet (handleGetData (handlePostData ⟨[], []⟩ "dev2"
        [("latitude", JsonValue.num 10), ("longitude", JsonValue.num 20),
         ("rssi", JsonValue.num (-50))] 7).1 "dev2").2.body "timestamp"
       = some (JsonValue.num 7)) :=
  ⟨rfl, C7_success_body_shape ⟨[], []⟩ "dev2"
    [("latitude", JsonValue.num 10), ("longitude", JsonValue.num 20),
     ("rssi", JsonValue.num (-50))] 7 rfl⟩

/-- C9: two GET /api/command/:id requests served after one POST.  Each
source handler is synchronous JavaScript with no suspension point, so the
Node event loop executes each handler atomically and two concurrent
requests are served in some serial order; the times ta and tb range over
both arrival orders.  Whichever request is served first observes buzzer
true and the one served second observes buzzer false, so exactly one of
the two concurrent callers sees true. -/
theorem C9_concurrent_polls_one_true (st : ServerState) (deviceId : String)
    (t0 ta tb : ℚ) :
    assocGet (handleGetCommand (handlePostCommand st deviceId t0).1
        deviceId ta).2.body "buzzer" = some (JsonValue.bool true) ∧
    assocGet (handleGetCommand
        (handleGetCommand (handlePostCommand st deviceId t0).1 deviceId ta).1
        deviceId tb).2.body "buzzer" = some (JsonValue.bool false) := by
  constructor
  · rw [handleGetCommand_after_post]
    simp [assocGet]
  · rw [handleGetCommand_of_cleared _ _ _
      (currentCommand_after_post_get st deviceId t0 ta)]
    exact currentCommand_after_post_get st deviceId t0 ta

/-- C10 counterexample: a valid body carrying an extra field named
timestamp with value 999, posted at server time 5: the subsequent GET
returns timestamp 5, not the posted 999, so not every extra field is kept
verbatim. -/
theorem C10_counterexample :
    isValidGpsData [("latitude", JsonValue.num 1),
      ("longitude", JsonValue.num 2), ("rssi", JsonValue.num 3),
      ("timestamp", JsonValue.num 999)] = true ∧
    assocGet [("latitude", JsonValue.num 1), ("longitude", JsonValue.num 2),
      ("rssi", JsonValue.num 3), ("timestamp", JsonValue.num 999)]
      "timestamp" = some (JsonValue.num 999) ∧
    assocGet (handleGetData (handlePostData ⟨[], []⟩ "dev1"
      [("latitude", JsonValue.num 1), ("longitude", JsonValue.num 2),
       ("rssi", JsonValue.num 3), ("timestamp", JsonValue.num 999)]
      5).1 "dev1").2.body "timestamp" = some (JsonValue.num 5) ∧
    ¬ (assocGet (handleGetData (handlePostData ⟨[], []⟩ "dev1"
      [("latitude", JsonValue.num 1), ("longitude", JsonValue.num 2),
       ("rssi", JsonValue.num 3), ("timestamp", JsonValue.num 999)]
      5).1 "dev1").2.body "timestamp"
      = assocGet [("latitude", JsonValue.num 1), ("longitude", JsonValue.num 2),
         ("rssi", JsonValue.num 3), ("timestamp", JsonValue.num 999)]
         "timestamp") := by
  decide

/-- C10 amended: POST /api/data/:deviceId stores the entire body: every
field other than one named timestamp (so in particular every extra field
beyond latitude, longitude, rssi not so named) is returned verbatim by a
subsequent GET, while a posted timestamp field is overwritten by the
server-assigned time. -/
theorem C10_extra_fields_kept (st : ServerState) (deviceId : String)
    (body : JsonObj) (t : ℚ) (k : String)
    (hvalid : isValidGpsData body = true) (hk : k ≠ "timestamp") :
    assocGet (handleGetData (handlePostData st deviceId body t).1
        deviceId).2.body k = assocGet body k ∧
    assocGet (handleGetData (handlePostData st deviceId body t).1
        deviceId).2.body "timestamp" = some (JsonValue.num t) := by
  rw [handleGetData_after_post st deviceId body t hvalid]
  exact ⟨assocGet_assocSet_ne body k "timestamp" _ (Ne.symm hk),
    assocGet_assocSet_self body "timestamp" _⟩

/-- Witness for the amended C10: an extra field named color survives the
round trip while the server stamps its own time. -/
theorem C10_extra_fields_kept_witness :
    isValidGpsData [("latitude", JsonValue.num 1),
      ("longitude", JsonValue.num 2), ("rssi", JsonValue.num 3),
      ("color", JsonValue.str "red")] = true ∧
    ("color" : String) ≠ "timestamp" ∧
    (assocGet (handleGetData (handlePostData ⟨[], []⟩ "dev1"
        [("latitude", JsonValue.num 1), ("longitude", JsonValue.num 2),
         ("rssi", JsonValue.num 3), ("color", JsonValue.str "red")]
        5).1 "dev1").2.body "color"
      = assocGet [("latitude", JsonValue.num 1), ("longitude", JsonValue.num 2),
         ("rssi", JsonValue.num 3), ("color", JsonValue.str "red")] "color" ∧
     assocGet (handleGetData (handlePostData ⟨[], []⟩ "dev1"
        [("latitude", JsonValue.num 1), ("longitude", JsonValue.num 2),
         ("rssi", JsonValue.num 3), ("color", JsonValue.str "red")]
        5).1 "dev1").2.body "timestamp" = some (JsonValue.num 5)) :=
  ⟨rfl, by decide, C10_extra_fields_kept ⟨[], []⟩ "dev1"
    [("latitude", JsonValue.num 1), ("longitude", JsonValue.num 2),
     ("rssi", JsonValue.num 3), ("color", JsonValue.str "red")] 5 "color"
    rfl (by decide)⟩

end ESP32Rest
